import Mathlib

/-!
Verification of the Crazy 88 assignment-completion core: the Session Clock
phase derivation, the Assignment Status Ledger and its Completion Writers,
the Score Ledger, the Scoreboard Aggregator and the Upload Pipeline, as
implemented in src/pages/AdminPage.tsx, src/utils/assignmentStatus.ts,
src/pages/ScoreboardPage.tsx and src/pages/TeamInterface.tsx.

Conventions of the embedding:
- Timestamps are integers in milliseconds; elapsed seconds are computed with
  Int.fdiv to mirror Math.floor on the millisecond difference.
- The shared datastore is a pair of association lists keyed by the composite
  (team, assignment, session) keys; a supabase upsert on the unique key is
  modelled as replace-first-or-append.
- A fallible datastore write or read takes an explicit Bool flag saying
  whether the store succeeds; the functions return the new store plus the
  boolean the TypeScript functions return.
-/

/-- The config row holding the Session Clock fields, from the Config
interface in AdminPage.tsx. -/
structure Config where
  timer_duration : Int
  timer_start_time : Option Int
  timer_is_running : Bool
  double_points_active : Bool
  game_session_id : String
deriving DecidableEq

/-- The six derived phases of getGameState in AdminPage.tsx. -/
inductive GameState
  | setup
  | running
  | paused
  | grace
  | finished
  | ready
deriving DecidableEq, BEq

/-- Elapsed whole seconds between two millisecond timestamps:
Math.floor((now - startTime) / 1000). -/
def elapsedSeconds (now startTime : Int) : Int :=
  Int.fdiv (now - startTime) 1000

/-- getGameState from AdminPage.tsx (lines 282-300): derives the phase from
the clock fields. setup when no duration, running when the flag is set,
paused while time remains, grace for at most 300 seconds past the duration,
finished beyond that, ready when the clock was never started. -/
def getGameState (config : Config) (now : Int) : GameState :=
  if config.timer_duration = 0 then GameState.setup
  else if config.timer_is_running then GameState.running
  else
    match config.timer_start_time with
    | some startTime =>
      let elapsed := elapsedSeconds now startTime
      let remaining := max 0 (config.timer_duration - elapsed)
      if remaining > 0 then GameState.paused
      else
        let graceElapsed := elapsed - config.timer_duration
        if graceElapsed ≤ 300 then GameState.grace else GameState.finished
    | none => GameState.ready

/-- canAssignPoints from AdminPage.tsx (lines 302-303): the UI-level phase
gate permitting point assignment. -/
def canAssignPoints (config : Config) (now : Int) : Bool :=
  decide (getGameState config now = GameState.running)
    || decide (getGameState config now = GameState.paused)
    || decide (getGameState config now = GameState.grace)

/-- pauseTimer from AdminPage.tsx (lines 170-188): stores the remaining time
as the new duration and stops the clock. The source dereferences
config.timer_start_time with a non-null assertion, modelled by the isSome
argument. Only timer_is_running and timer_duration are updated. -/
def pauseTimer (config : Config) (now : Int) (h : config.timer_start_time.isSome) : Config :=
  let startTime := config.timer_start_time.get h
  let elapsed := elapsedSeconds now startTime
  let remaining := max 0 (config.timer_duration - elapsed)
  { config with timer_is_running := false, timer_duration := remaining }

/-- Replace the first binding of a key, or append a new binding: the
embedding of a supabase upsert with onConflict on the unique composite key
of the row. -/
def upsertAssoc {κ α : Type} [DecidableEq κ] (k : κ) (v : α) : List (κ × α) → List (κ × α)
  | [] => [(k, v)]
  | p :: ps => if p.1 = k then (k, v) :: ps else p :: upsertAssoc k v ps

/-- First binding of a key in an association list, the embedding of a
select filtered on the composite key. -/
def lookupAssoc {κ α : Type} [DecidableEq κ] (k : κ) : List (κ × α) → Option α
  | [] => none
  | p :: ps => if p.1 = k then some p.2 else lookupAssoc k ps

/-- Number of rows carrying a key. -/
def countKey {κ α : Type} [DecidableEq κ] (k : κ) : List (κ × α) → Nat
  | [] => 0
  | p :: ps => (if p.1 = k then 1 else 0) + countKey k ps

/-- The five statuses of an AssignmentStatus record, from
assignmentStatus.ts. -/
inductive Status
  | not_started
  | submitted
  | approved
  | completed_jury
  | rejected
deriving DecidableEq, BEq

/-- The completion methods, also used as the created_via tag on a scores
row. -/
inductive CompletionMethod
  | jury
  | review
  | creativity
deriving DecidableEq, BEq

/-- The composite unique key of an assignment_status row. -/
structure StatusKey where
  team_id : String
  assignment_number : Int
  game_session_id : String
deriving DecidableEq

/-- The composite unique key of a scores row. -/
structure ScoreKey where
  team_id : String
  assignment_id : Int
  game_session_id : String
deriving DecidableEq

/-- The mutable fields of an assignment_status row (the statusData object
assembled by AssignmentStatusManager.updateStatus). -/
structure StatusRecord where
  status : Status
  points_awarded : Int
  completion_method : Option CompletionMethod
  submission_id : Option String
  score_id : Option String
  notes : Option String
  completed_by : String
  completed_at : Option Int
  updated_at : Int
deriving DecidableEq

/-- A scores row: the id returned by the insert or upsert, the points, and
the created_via tag. -/
structure ScoreRecord where
  id : String
  points : Int
  created_via : CompletionMethod
deriving DecidableEq

/-- The shared datastore: the assignment_status table and the scores
table, each keyed by its unique composite key. -/
structure DB where
  statuses : List (StatusKey × StatusRecord)
  scores : List (ScoreKey × ScoreRecord)
deriving DecidableEq

/-- The empty datastore. -/
def dbEmpty : DB := { statuses := [], scores := [] }

/-- The options object of updateStatus. -/
structure StatusOptions where
  submissionId : Option String
  scoreId : Option String
  notes : Option String
  completedBy : Option String
deriving DecidableEq

/-- The statusData object built inside updateStatus (assignmentStatus.ts
lines 85-98): every field is supplied from the arguments, completed_by
defaults to system, completed_at is now iff the new status is approved or
completed_jury, else null. -/
def buildStatusData (status : Status) (points : Int) (method : Option CompletionMethod)
    (options : StatusOptions) (now : Int) : StatusRecord :=
  { status := status
    points_awarded := points
    completion_method := method
    submission_id := options.submissionId
    score_id := options.scoreId
    notes := options.notes
    completed_by := options.completedBy.getD "system"
    completed_at := if status = Status.approved ∨ status = Status.completed_jury then some now else none
    updated_at := now }

/-- AssignmentStatusManager.updateStatus (assignmentStatus.ts lines
70-117): builds the full statusData record and upserts it on the composite
key; a store error yields false and leaves the table unchanged. -/
def updateStatus (db : DB) (teamId : String) (assignmentNumber : Int) (status : Status)
    (points : Int) (method : Option CompletionMethod) (gameSessionId : String)
    (options : StatusOptions) (now : Int) (writeOk : Bool) : DB × Bool :=
  if writeOk then
    let statusData := buildStatusData status points method options now
    let key : StatusKey := ⟨teamId, assignmentNumber, gameSessionId⟩
    ({ db with statuses := upsertAssoc key statusData db.statuses }, true)
  else (db, false)

/-- The scores upsert with .select().single() used by the Completion
Writers: update keeps the existing row id, insert uses a fresh id; the
returned record is the row after the write. -/
def upsertScoreReturning (scores : List (ScoreKey × ScoreRecord)) (k : ScoreKey)
    (points : Int) (createdVia : CompletionMethod) (freshId : String) :
    List (ScoreKey × ScoreRecord) × ScoreRecord :=
  match lookupAssoc k scores with
  | some existing =>
    let updated : ScoreRecord := { id := existing.id, points := points, created_via := createdVia }
    (upsertAssoc k updated scores, updated)
  | none =>
    let inserted : ScoreRecord := { id := freshId, points := points, created_via := createdVia }
    (upsertAssoc k inserted scores, inserted)

/-- AssignmentStatusManager.completeViaJury (assignmentStatus.ts lines
120-173): upserts the scores row first; on a scores-side error it returns
false at once, performing no status write; otherwise it upserts the status
to completed_jury carrying the score id, and returns the status-write
result. -/
def completeViaJury (db : DB) (teamId : String) (assignmentNumber : Int) (points : Int)
    (gameSessionId : String) (method : CompletionMethod) (notes : Option String)
    (freshScoreId : String) (now : Int) (scoreWriteOk statusWriteOk : Bool) : DB × Bool :=
  if scoreWriteOk then
    let r := upsertScoreReturning db.scores ⟨teamId, assignmentNumber, gameSessionId⟩
      points method freshScoreId
    let db1 : DB := { db with scores := r.1 }
    updateStatus db1 teamId assignmentNumber Status.completed_jury points (some method)
      gameSessionId
      { submissionId := none, scoreId := some r.2.id, notes := notes, completedBy := some "jury" }
      now statusWriteOk
  else (db, false)

/-- AssignmentStatusManager.completeViaReview (assignmentStatus.ts lines
177-231): upserts the scores row; a scores-side error is logged and the
writer continues anyway with a null score id; it then upserts the status to
approved and returns the status-write result. -/
def completeViaReview (db : DB) (submissionId : String) (teamId : String)
    (assignmentNumber : Int) (points : Int) (gameSessionId : String) (notes : Option String)
    (freshScoreId : String) (now : Int) (scoreWriteOk statusWriteOk : Bool) : DB × Bool :=
  let scoresAfter : List (ScoreKey × ScoreRecord) × Option String :=
    if scoreWriteOk then
      let r := upsertScoreReturning db.scores ⟨teamId, assignmentNumber, gameSessionId⟩
        points CompletionMethod.review freshScoreId
      (r.1, some r.2.id)
    else (db.scores, none)
  let db1 : DB := { db with scores := scoresAfter.1 }
  updateStatus db1 teamId assignmentNumber Status.approved points
    (some CompletionMethod.review) gameSessionId
    { submissionId := some submissionId, scoreId := scoresAfter.2, notes := notes,
      completedBy := some "review" }
    now statusWriteOk

/-- AssignmentStatusManager.getStatus (assignmentStatus.ts lines 25-45):
returns the row for the key, and null both when no row exists
(maybeSingle) and when the read errors. -/
def getStatus (db : DB) (teamId : String) (assignmentNumber : Int) (gameSessionId : String)
    (readOk : Bool) : Option StatusRecord :=
  if readOk then lookupAssoc ⟨teamId, assignmentNumber, gameSessionId⟩ db.statuses else none

/-- Whether an optional status record carries a given status, the shape of
the currentStatus checks in AdminPage.tsx. -/
def statusIsOneOf (s : Option StatusRecord) (target : Status) : Bool :=
  match s with
  | some r => decide (r.status = target)
  | none => false

/-- handleAssignmentClick from AdminPage.tsx (lines 685-747): reads the
current status; an approved or completed_jury key is refused before any
write; a submitted or rejected key asks for confirmation; otherwise the
jury award runs completeViaJury with 2 points under double points, else 1.
The confirm dialogs are the two Bool arguments. -/
def handleAssignmentClick (db : DB) (teamId : String) (assignmentId : Int) (config : Config)
    (readOk confirmSubmitted confirmRejected : Bool) (freshScoreId : String)
    (now : Int) (scoreWriteOk statusWriteOk : Bool) : DB × Bool :=
  let currentStatus := getStatus db teamId assignmentId config.game_session_id readOk
  if statusIsOneOf currentStatus Status.approved
      || statusIsOneOf currentStatus Status.completed_jury then
    (db, false)
  else if statusIsOneOf currentStatus Status.submitted && !confirmSubmitted then
    (db, false)
  else if statusIsOneOf currentStatus Status.rejected && !confirmRejected then
    (db, false)
  else
    let finalPoints : Int := if config.double_points_active then 2 else 1
    completeViaJury db teamId assignmentId finalPoints config.game_session_id
      CompletionMethod.jury (some "Handmatig toegekend via jury pagina") freshScoreId now
      scoreWriteOk statusWriteOk

/-- handleCreativityPoints from AdminPage.tsx (lines 846-891): validates
the assignment number is 1..88, refuses an approved or completed_jury key
before any write, and otherwise awards 5 points via completeViaJury with
the creativity method. -/
def handleCreativityPoints (db : DB) (teamId : String) (assignmentId : Int) (config : Config)
    (readOk : Bool) (freshScoreId : String) (now : Int)
    (scoreWriteOk statusWriteOk : Bool) : DB × Bool :=
  if assignmentId < 1 || assignmentId > 88 then (db, false)
  else
    let currentStatus := getStatus db teamId assignmentId config.game_session_id readOk
    if statusIsOneOf currentStatus Status.approved
        || statusIsOneOf currentStatus Status.completed_jury then
      (db, false)
    else
      completeViaJury db teamId assignmentId 5 config.game_session_id
        CompletionMethod.creativity (some "Creativiteitspunten toegekend door jury")
        freshScoreId now scoreWriteOk statusWriteOk

/-- A per-team aggregate row of the Scoreboard Aggregator (the Team
interface of ScoreboardPage.tsx, aggregate fields). -/
structure TeamStanding where
  id : String
  name : String
  category : String
  total_points : Int
  assignments_completed : Int
  creativity_points : Int
  normal_points : Int
deriving DecidableEq

/-- The embedding of String.prototype.localeCompare for team names:
negative when the first name sorts earlier, zero when equal, positive
otherwise. -/
def nameCompare (a b : String) : Int :=
  if a < b then -1 else if a = b then 0 else 1

/-- The scoreboard sort comparator of ScoreboardPage.tsx (lines 129-144):
total points descending, then assignments completed descending, then
creativity points descending, then name ascending. -/
def teamCompare (a b : TeamStanding) : Int :=
  if b.total_points ≠ a.total_points then b.total_points - a.total_points
  else if b.assignments_completed ≠ a.assignments_completed then
    b.assignments_completed - a.assignments_completed
  else if b.creativity_points ≠ a.creativity_points then
    b.creativity_points - a.creativity_points
  else nameCompare a.name b.name

/-- Stable insertion of an element into a list already ordered by the
comparator: the element goes before the first entry it does not compare
after. -/
def insertByCompare (cmp : TeamStanding → TeamStanding → Int) (x : TeamStanding) :
    List TeamStanding → List TeamStanding
  | [] => [x]
  | y :: ys => if cmp x y ≤ 0 then x :: y :: ys else y :: insertByCompare cmp x ys

/-- Stable comparator sort, the embedding of Array.prototype.sort with a
comparator (stable per the ECMAScript specification). -/
def sortByCompare (cmp : TeamStanding → TeamStanding → Int) :
    List TeamStanding → List TeamStanding
  | [] => []
  | x :: xs => insertByCompare cmp x (sortByCompare cmp xs)

/-- The transient state of the scoreboard refresh loop: the
latestFetchRef fencing cell and the committed (displayed) teams list,
from ScoreboardPage.tsx. -/
structure RefreshState where
  latestFetch : Nat
  displayed : Option (List TeamStanding)
deriving DecidableEq

/-- One observable event of the refresh protocol: a refresh starting (it
stores its request identifier into latestFetchRef, ScoreboardPage.tsx
lines 52-54) or its results arriving (committed only if the identifier
still equals latestFetchRef, lines 174-181). -/
inductive FetchEvent
  | start (requestId : Nat)
  | arrive (requestId : Nat) (result : List TeamStanding)
deriving DecidableEq

/-- One step of the refresh protocol. -/
def stepFetch (s : RefreshState) : FetchEvent → RefreshState
  | FetchEvent.start rid => { s with latestFetch := rid }
  | FetchEvent.arrive rid result =>
    if s.latestFetch = rid then { s with displayed := some result } else s

/-- Run a sequence of refresh events. -/
def runFetch (s : RefreshState) : List FetchEvent → RefreshState
  | [] => s
  | e :: es => runFetch (stepFetch s e) es

/-- The media kinds distinguished by the upload validation in
TeamInterface.tsx (file.type.startsWith on image/, video/, audio/). -/
inductive FileKind
  | image
  | video
  | audio
  | other
deriving DecidableEq, BEq

/-- A candidate upload file: name, size in bytes, media kind. -/
structure MediaFile where
  name : String
  size : Int
  kind : FileKind
deriving DecidableEq

/-- The per-assignment evidence requirements read by the upload
validation (Assignment interface of TeamInterface.tsx). -/
structure AssignmentRow where
  id : String
  number : Int
  points_base : Int
  requires_photo : Bool
  requires_video : Bool
  requires_audio : Bool
deriving DecidableEq

/-- The configured maximum upload size of handleFileUpload
(TeamInterface.tsx line 445): 150 * 1024 * 1024 bytes. -/
def maxUploadSize : Int := 150 * 1024 * 1024

/-- The MIME-type gate of handleFileUpload (TeamInterface.tsx lines
452-456): the file kind must match one of the required media types of the
assignment. -/
def isValidType (assignment : AssignmentRow) (file : MediaFile) : Bool :=
  (assignment.requires_photo && decide (file.kind = FileKind.image))
    || (assignment.requires_video && decide (file.kind = FileKind.video))
    || (assignment.requires_audio && decide (file.kind = FileKind.audio))

/-- The network-visible effects the Upload Pipeline can perform, in the
order handleFileUpload performs them: the storage upload (with retries),
the select for an existing submission, the submissions insert or update.
A unified status write is in the effect vocabulary for completeness; this
revision of handleFileUpload never performs one. -/
inductive UploadEffect
  | storageUpload
  | submissionSelect
  | submissionInsert
  | submissionUpdate
  | statusWrite
deriving DecidableEq

/-- The outcome handleFileUpload reports. -/
inductive UploadResult
  | rejectedTooLarge
  | rejectedWrongType
  | uploadFailed
  | dbFailed
  | success
deriving DecidableEq

/-- handleFileUpload from TeamInterface.tsx (lines 429-595) as an effect
trace: size and type validation throw before compression and before any
network step; then the storage upload runs (uploadWithRetry, lines
393-426, collapsed to its eventual outcome), then the select for an
existing submission, then the update or insert of the submissions row.
The Bool arguments are whether an earlier submission exists and whether
the storage and database steps succeed. -/
def handleFileUpload (file : MediaFile) (assignment : AssignmentRow)
    (hasExistingSubmission uploadOk dbOk : Bool) : UploadResult × List UploadEffect :=
  if file.size > maxUploadSize then (UploadResult.rejectedTooLarge, [])
  else if !isValidType assignment file then (UploadResult.rejectedWrongType, [])
  else if !uploadOk then (UploadResult.uploadFailed, [UploadEffect.storageUpload])
  else if hasExistingSubmission then
    if dbOk then
      (UploadResult.success,
        [UploadEffect.storageUpload, UploadEffect.submissionSelect, UploadEffect.submissionUpdate])
    else
      (UploadResult.dbFailed,
        [UploadEffect.storageUpload, UploadEffect.submissionSelect, UploadEffect.submissionUpdate])
  else
    if dbOk then
      (UploadResult.success,
        [UploadEffect.storageUpload, UploadEffect.submissionSelect, UploadEffect.submissionInsert])
    else
      (UploadResult.dbFailed,
        [UploadEffect.storageUpload, UploadEffect.submissionSelect, UploadEffect.submissionInsert])

theorem lookupAssoc_upsertAssoc {κ α : Type} [DecidableEq κ] (k : κ) (v : α) :
    ∀ l : List (κ × α), lookupAssoc k (upsertAssoc k v l) = some v := by
  intro l
  induction l with
  | nil => simp [upsertAssoc, lookupAssoc]
  | cons p ps ih =>
    by_cases h : p.1 = k
    · simp [upsertAssoc, lookupAssoc, h]
    · simp [upsertAssoc, lookupAssoc, h, ih]

theorem upsertAssoc_idem {κ α : Type} [DecidableEq κ] (k : κ) (v : α) :
    ∀ l : List (κ × α), upsertAssoc k v (upsertAssoc k v l) = upsertAssoc k v l := by
  intro l
  induction l with
  | nil => simp [upsertAssoc]
  | cons p ps ih =>
    by_cases h : p.1 = k
    · simp [upsertAssoc, h]
    · simp [upsertAssoc, h, ih]

theorem countKey_upsertAssoc {κ α : Type} [DecidableEq κ] (k : κ) (v : α) :
    ∀ l : List (κ × α), countKey k l ≤ 1 → countKey k (upsertAssoc k v l) = 1 := by
  intro l
  induction l with
  | nil => intro _; simp [upsertAssoc, countKey]
  | cons p ps ih =>
    intro hle
    by_cases h : p.1 = k
    · simp only [countKey, if_pos h] at hle
      have hz : countKey k ps = 0 := by omega
      simp [upsertAssoc, countKey, if_pos h, hz]
    · simp only [countKey, if_neg h] at hle
      simp only [upsertAssoc, if_neg h, countKey]
      rw [ih (by omega)]

/-- Claim C5 fails on the code at the second worked-example point: with
duration 600 and startTime 900 seconds in the past (elapsed exactly 300
seconds past the duration), getGameState yields grace, not finished,
because the grace test is graceElapsed less than or equal to 300. -/
theorem grace_at_exactly_900s_cex :
    getGameState ⟨600, some 0, false, false, "s1"⟩ 900000 = GameState.grace ∧
    GameState.grace ≠ GameState.finished := by
  exact ⟨rfl, by decide⟩

/-- Claim C5 (amended): with duration 600 and isRunning false, the phase at
650 seconds elapsed is grace; at exactly 900 seconds elapsed (300 seconds
past the duration) it is still grace, since the grace window is inclusive
at its 300-second boundary; finished first occurs strictly past it, for
example at 901 seconds elapsed. -/
theorem phase_math_grace_boundary :
    getGameState ⟨600, some 0, false, false, "s1"⟩ 650000 = GameState.grace ∧
    getGameState ⟨600, some 0, false, false, "s1"⟩ 900000 = GameState.grace ∧
    getGameState ⟨600, some 0, false, false, "s1"⟩ 901000 = GameState.finished := by
  exact ⟨rfl, rfl, rfl⟩

/-- Claim C6 fails on the code: pausing a running clock stores the
remaining time and stops the clock, but timer_start_time is not cleared —
at this concrete running state it is still some 0 after the pause, not
null. -/
theorem pauseTimer_start_time_not_cleared_cex :
    (pauseTimer ⟨600, some 0, true, false, "s1"⟩ 100000 rfl).timer_duration = 500 ∧
    (pauseTimer ⟨600, some 0, true, false, "s1"⟩ 100000 rfl).timer_is_running = false ∧
    (pauseTimer ⟨600, some 0, true, false, "s1"⟩ 100000 rfl).timer_start_time = some 0 ∧
    some (0 : Int) ≠ (none : Option Int) := by
  refine ⟨rfl, rfl, rfl, by decide⟩

/-- Claim C6 (amended): for every running clock state with a startTime,
pause stores duration = max(0, duration - elapsed), sets isRunning to
false, and leaves startTime unchanged (it is not cleared). -/
theorem pauseTimer_stores_remaining_keeps_start_time (config : Config) (now : Int)
    (hrun : config.timer_is_running = true) (h : config.timer_start_time.isSome) :
    (pauseTimer config now h).timer_is_running = false ∧
    (pauseTimer config now h).timer_duration
      = max 0 (config.timer_duration - elapsedSeconds now (config.timer_start_time.get h)) ∧
    (pauseTimer config now h).timer_start_time = config.timer_start_time := by
  exact ⟨rfl, rfl, rfl⟩

/-- Witness for the amended C6 theorem at a concrete running clock. -/
theorem pauseTimer_stores_remaining_keeps_start_time_witness :
    (pauseTimer ⟨600, some 0, true, false, "s1"⟩ 200000 rfl).timer_start_time = some 0 :=
  (pauseTimer_stores_remaining_keeps_start_time ⟨600, some 0, true, false, "s1"⟩ 200000
    rfl rfl).2.2

/-- Claim C1 fails on the code: at a clock state whose derived phase is
finished (so canAssignPoints is false), the jury direct-award writer still
performs its Score Ledger and Status Ledger writes and reports success —
no phase check exists inside the writer operations. -/
theorem handleAssignmentClick_writes_when_finished_cex :
    getGameState ⟨600, some 0, false, false, "s1"⟩ 1000000 = GameState.finished ∧
    canAssignPoints ⟨600, some 0, false, false, "s1"⟩ 1000000 = false ∧
    (handleAssignmentClick dbEmpty "t1" 1 ⟨600, some 0, false, false, "s1"⟩
      true true true "sc1" 77 true true).2 = true ∧
    (handleAssignmentClick dbEmpty "t1" 1 ⟨600, some 0, false, false, "s1"⟩
      true true true "sc1" 77 true true).1 ≠ dbEmpty := by
  refine ⟨rfl, rfl, rfl, by decide⟩

/-- Claim C1 (amended): the phase gate exists only at the UI level —
canAssignPoints holds exactly when the derived phase is running, paused or
grace, and it is used to disable controls — while the writer operations
themselves never consult the clock: their behaviour is unchanged under any
change of the timer fields (two configs agreeing on double_points_active
and game_session_id give identical writer results). -/
theorem phase_gate_ui_only (config config2 : Config) (now : Int)
    (hdp : config.double_points_active = config2.double_points_active)
    (hsid : config.game_session_id = config2.game_session_id)
    (db : DB) (teamId : String) (n : Int) (readOk cS cR : Bool) (freshScoreId : String)
    (t : Int) (scoreOk statusOk : Bool) :
    (canAssignPoints config now = true ↔
      (getGameState config now = GameState.running
        ∨ getGameState config now = GameState.paused
        ∨ getGameState config now = GameState.grace)) ∧
    handleAssignmentClick db teamId n config readOk cS cR freshScoreId t scoreOk statusOk
      = handleAssignmentClick db teamId n config2 readOk cS cR freshScoreId t scoreOk statusOk ∧
    handleCreativityPoints db teamId n config readOk freshScoreId t scoreOk statusOk
      = handleCreativityPoints db teamId n config2 readOk freshScoreId t scoreOk statusOk := by
  obtain ⟨d1, s1, r1, dp1, g1⟩ := config
  obtain ⟨d2, s2, r2, dp2, g2⟩ := config2
  dsimp only at hdp hsid
  subst hdp
  subst hsid
  refine ⟨?_, rfl, rfl⟩
  simp [canAssignPoints, or_assoc]

/-- Witness for the amended C1 theorem: two concrete configs, one running
and one finished, on which the jury writer behaves identically. -/
theorem phase_gate_ui_only_witness :
    handleAssignmentClick dbEmpty "t1" 1 ⟨600, some 0, true, false, "s1"⟩
        true true true "sc1" 7 true true
      = handleAssignmentClick dbEmpty "t1" 1 ⟨600, some 0, false, false, "s1"⟩
        true true true "sc1" 7 true true :=
  (phase_gate_ui_only ⟨600, some 0, true, false, "s1"⟩ ⟨600, some 0, false, false, "s1"⟩ 0
    rfl rfl dbEmpty "t1" 1 true true true "sc1" 7 true true).2.1

/-- Claim C2: when the status read succeeds and the key is already
approved or completed_jury, both the plain jury award and the creativity
award return failure with the datastore — scores and statuses alike —
completely unchanged. -/
theorem jury_award_blocked_on_completed_key (db : DB) (teamId : String) (n : Int)
    (config : Config) (rec : StatusRecord)
    (h : lookupAssoc ⟨teamId, n, config.game_session_id⟩ db.statuses = some rec)
    (hst : rec.status = Status.approved ∨ rec.status = Status.completed_jury)
    (cS cR : Bool) (freshScoreId : String) (now : Int) (scoreOk statusOk : Bool) :
    handleAssignmentClick db teamId n config true cS cR freshScoreId now scoreOk statusOk
      = (db, false) ∧
    handleCreativityPoints db teamId n config true freshScoreId now scoreOk statusOk
      = (db, false) := by
  have hs : getStatus db teamId n config.game_session_id true = some rec := by
    simp [getStatus, h]
  constructor
  · simp only [handleAssignmentClick, hs, statusIsOneOf]
    rcases hst with h1 | h1 <;> simp [h1]
  · simp only [handleCreativityPoints, hs, statusIsOneOf]
    rcases hst with h1 | h1 <;> simp [h1]

/-- Witness for C2: a concrete store holding one completed_jury record, on
which the plain jury award is refused without mutation. -/
theorem jury_award_blocked_on_completed_key_witness :
    handleAssignmentClick
        ⟨[(⟨"t1", 1, "s1"⟩, buildStatusData Status.completed_jury 1 (some CompletionMethod.jury)
          ⟨none, some "sc1", none, some "jury"⟩ 5)], []⟩
        "t1" 1 ⟨600, some 0, true, false, "s1"⟩ true true true "sc2" 9 true true
      = (⟨[(⟨"t1", 1, "s1"⟩, buildStatusData Status.completed_jury 1 (some CompletionMethod.jury)
          ⟨none, some "sc1", none, some "jury"⟩ 5)], []⟩, false) :=
  (jury_award_blocked_on_completed_key
    ⟨[(⟨"t1", 1, "s1"⟩, buildStatusData Status.completed_jury 1 (some CompletionMethod.jury)
      ⟨none, some "sc1", none, some "jury"⟩ 5)], []⟩
    "t1" 1 ⟨600, some 0, true, false, "s1"⟩
    (buildStatusData Status.completed_jury 1 (some CompletionMethod.jury)
      ⟨none, some "sc1", none, some "jury"⟩ 5)
    (by decide) (Or.inr rfl) true true "sc2" 9 true true).1

/-- Claim C3: under the unique-key store invariant, calling updateStatus
twice with identical arguments leaves the store exactly as a single call
does, with exactly one record for the composite key, and that record is
the full statusData built from the arguments — a complete replacement,
not a merge. -/
theorem updateStatus_idempotent_full_replace (db : DB) (teamId : String) (n : Int)
    (st : Status) (points : Int) (method : Option CompletionMethod) (sid : String)
    (options : StatusOptions) (now : Int)
    (hwf : countKey ⟨teamId, n, sid⟩ db.statuses ≤ 1) :
    (updateStatus (updateStatus db teamId n st points method sid options now true).1
        teamId n st points method sid options now true).1
      = (updateStatus db teamId n st points method sid options now true).1 ∧
    countKey (⟨teamId, n, sid⟩ : StatusKey)
        (updateStatus db teamId n st points method sid options now true).1.statuses = 1 ∧
    lookupAssoc (⟨teamId, n, sid⟩ : StatusKey)
        (updateStatus db teamId n st points method sid options now true).1.statuses
      = some (buildStatusData st points method options now) := by
  refine ⟨?_, ?_, ?_⟩
  · simp [updateStatus, upsertAssoc_idem]
  · simp [updateStatus, countKey_upsertAssoc _ _ _ hwf]
  · simp [updateStatus, lookupAssoc_upsertAssoc]

/-- Witness for C3 at the empty store. -/
theorem updateStatus_idempotent_full_replace_witness :
    countKey (⟨"t1", 1, "s1"⟩ : StatusKey)
      (updateStatus dbEmpty "t1" 1 Status.submitted 0 (some CompletionMethod.review) "s1"
        ⟨some "sub1", none, none, some "team"⟩ 9 true).1.statuses = 1 :=
  (updateStatus_idempotent_full_replace dbEmpty "t1" 1 Status.submitted 0
    (some CompletionMethod.review) "s1" ⟨some "sub1", none, none, some "team"⟩ 9
    (by decide)).2.1

/-- Claim C4 fails on the code for the jury path: a Score Ledger failure
makes completeViaJury return false at once, performing no Status Ledger
upsert at all — at the empty store with a failing score write, the result
is failure and the status table stays empty. -/
theorem completeViaJury_score_failure_fatal_cex :
    completeViaJury dbEmpty "t1" 1 1 "s1" CompletionMethod.jury none "sc1" 0 false true
      = (dbEmpty, false) ∧
    (completeViaJury dbEmpty "t1" 1 1 "s1" CompletionMethod.jury none "sc1" 0 false
      true).1.statuses = [] := by
  exact ⟨rfl, rfl⟩

/-- Claim C4 (amended): the non-fatal treatment of a Score Ledger failure
holds only for the review writer — completeViaReview still upserts the
status (with a null score id) and reports success — while completeViaJury
treats the score failure as fatal, aborting before any status write; for
both writers a Status Ledger failure makes the operation report failure. -/
theorem score_failure_nonfatal_review_fatal_jury (db : DB) (submissionId teamId : String)
    (n points : Int) (sid : String) (notes : Option String) (freshId : String) (now : Int)
    (method : CompletionMethod) (statusOk : Bool) :
    (completeViaReview db submissionId teamId n points sid notes freshId now false true).2
      = true ∧
    lookupAssoc (⟨teamId, n, sid⟩ : StatusKey)
        (completeViaReview db submissionId teamId n points sid notes freshId now false
          true).1.statuses
      = some (buildStatusData Status.approved points (some CompletionMethod.review)
          ⟨some submissionId, none, notes, some "review"⟩ now) ∧
    (completeViaReview db submissionId teamId n points sid notes freshId now false
      true).1.scores = db.scores ∧
    completeViaJury db teamId n points sid method notes freshId now false statusOk
      = (db, false) ∧
    (completeViaReview db submissionId teamId n points sid notes freshId now true false).2
      = false ∧
    (completeViaJury db teamId n points sid method notes freshId now true false).2
      = false := by
  refine ⟨rfl, ?_, rfl, rfl, rfl, ?_⟩
  · simp [completeViaReview, updateStatus, lookupAssoc_upsertAssoc]
  · simp [completeViaJury, updateStatus]

/-- Claim C7 fails on the code: the comparator breaks a total-points and
assignments-completed tie on creativity points (descending) before the
name, so two teams tied on points and count are not always alphabetical —
Beta (5 creativity points) ranks above Alpha. -/
theorem scoreboard_sort_creativity_tiebreak_cex :
    sortByCompare teamCompare
        [⟨"a1", "Alpha", "MR", 7, 3, 0, 7⟩, ⟨"b1", "Beta", "MR", 7, 3, 5, 2⟩]
      = [⟨"b1", "Beta", "MR", 7, 3, 5, 2⟩, ⟨"a1", "Alpha", "MR", 7, 3, 0, 7⟩] ∧
    nameCompare "Alpha" "Beta" = -1 := by
  constructor
  · rfl
  · have hab : ("Alpha" : String) < "Beta" := by
      rw [String.lt_iff_toList_lt]
      decide
    simp [nameCompare, hab]

/-- Claim C7 (amended): the ranking sorts on exactly the key
(totalPoints desc, assignmentsCompleted desc, creativityPoints desc,
name asc): with equal totals and counts, unequal creativity points are
ordered descending, and only teams also tied on creativity points are
ordered by name. -/
theorem scoreboard_sort_key (a b : TeamStanding)
    (h1 : a.total_points = b.total_points)
    (h2 : a.assignments_completed = b.assignments_completed) :
    (a.creativity_points = b.creativity_points →
      teamCompare a b = nameCompare a.name b.name) ∧
    (a.creativity_points ≠ b.creativity_points →
      teamCompare a b = b.creativity_points - a.creativity_points) := by
  constructor
  · intro h3
    simp [teamCompare, h1, h2, h3]
  · intro h3
    have h4 : b.creativity_points ≠ a.creativity_points := Ne.symm h3
    simp [teamCompare, h1, h2, h4]

/-- Witness for the amended C7 theorem on two teams tied on all three
leading keys. -/
theorem scoreboard_sort_key_witness :
    teamCompare ⟨"a1", "Alpha", "MR", 7, 3, 0, 7⟩ ⟨"b1", "Beta", "MR", 7, 3, 0, 4⟩
      = nameCompare "Alpha" "Beta" :=
  (scoreboard_sort_key ⟨"a1", "Alpha", "MR", 7, 3, 0, 7⟩ ⟨"b1", "Beta", "MR", 7, 3, 0, 4⟩
    rfl rfl).1 rfl

/-- Claim C8 fails on the code: request identifiers come from Date.now(),
which is only non-decreasing — two refreshes starting in the same
millisecond share an identifier, and then the earlier refresh's late
result passes the fencing check and is committed, rolling the display
back from the later refresh's result. -/
theorem stale_refresh_same_id_commits_cex :
    runFetch ⟨0, none⟩
        [FetchEvent.start 100, FetchEvent.start 100,
         FetchEvent.arrive 100 [⟨"b1", "Beta", "MR", 7, 3, 5, 2⟩],
         FetchEvent.arrive 100 []]
      = ⟨100, some []⟩ ∧
    ([] : List TeamStanding) ≠ [⟨"b1", "Beta", "MR", 7, 3, 5, 2⟩] := by
  refine ⟨rfl, by decide⟩

/-- Claim C8 (amended): the fencing works whenever the later-started
refresh holds a distinct (hence strictly larger) identifier: if B starts
after A with a different request id, then whether A's result arrives
before or after B's, A's result is discarded at the fencing check and the
displayed result is B's. -/
theorem refresh_fencing_distinct_ids (s0 : RefreshState) (idA idB : Nat)
    (rA rB : List TeamStanding) (hne : idA ≠ idB) :
    runFetch s0 [FetchEvent.start idA, FetchEvent.start idB,
        FetchEvent.arrive idB rB, FetchEvent.arrive idA rA]
      = ⟨idB, some rB⟩ ∧
    runFetch s0 [FetchEvent.start idA, FetchEvent.start idB,
        FetchEvent.arrive idA rA, FetchEvent.arrive idB rB]
      = ⟨idB, some rB⟩ := by
  have hne2 : idB ≠ idA := Ne.symm hne
  constructor <;> simp [runFetch, stepFetch, hne, hne2]

/-- Witness for the amended C8 theorem with concrete distinct ids. -/
theorem refresh_fencing_distinct_ids_witness :
    runFetch ⟨0, none⟩
        [FetchEvent.start 1, FetchEvent.start 2,
         FetchEvent.arrive 2 [], FetchEvent.arrive 1 [⟨"a1", "Alpha", "MR", 7, 3, 0, 7⟩]]
      = ⟨2, some []⟩ :=
  (refresh_fencing_distinct_ids ⟨0, none⟩ 1 2 [⟨"a1", "Alpha", "MR", 7, 3, 0, 7⟩] []
    (by decide)).1

/-- Claim C9: a file over the configured maximum size, or whose media kind
matches none of the assignment's requirements, is rejected with an empty
effect trace — no storage upload, no submissions select, insert or
update, and no status write happens. -/
theorem upload_gate_rejects_before_network (file : MediaFile) (assignment : AssignmentRow)
    (hasExisting uploadOk dbOk : Bool)
    (h : file.size > maxUploadSize ∨ isValidType assignment file = false) :
    (handleFileUpload file assignment hasExisting uploadOk dbOk).2 = [] ∧
    ((handleFileUpload file assignment hasExisting uploadOk dbOk).1
        = UploadResult.rejectedTooLarge
      ∨ (handleFileUpload file assignment hasExisting uploadOk dbOk).1
        = UploadResult.rejectedWrongType) := by
  rcases h with h | h
  · refine ⟨?_, Or.inl ?_⟩ <;> simp [handleFileUpload, if_pos h]
  · by_cases hs : file.size > maxUploadSize
    · refine ⟨?_, Or.inl ?_⟩ <;> simp [handleFileUpload, if_pos hs]
    · refine ⟨?_, Or.inr ?_⟩ <;> simp [handleFileUpload, if_neg hs, h]

/-- Witness for C9: a 200 MB video upload is rejected with no effects. -/
theorem upload_gate_rejects_before_network_witness :
    (handleFileUpload ⟨"big", 209715200, FileKind.video⟩ ⟨"a1", 1, 1, false, true, false⟩
      false true true).2 = [] :=
  (upload_gate_rejects_before_network ⟨"big", 209715200, FileKind.video⟩
    ⟨"a1", 1, 1, false, true, false⟩ false true true (Or.inl (by decide))).1

/-- Claim C10: getStatus returns none both on a failed read and on a
missing record, so the two are indistinguishable to callers; with a
failing read the jury award's precondition check sees none and the award
proceeds to completeViaJury exactly as for a not-started key. -/
theorem getStatus_error_treated_as_absent (db : DB) (teamId : String) (n : Int)
    (config : Config) (cS cR : Bool) (freshScoreId : String) (now : Int)
    (scoreOk statusOk : Bool) (t2 sid2 : String) (m : Int) :
    getStatus db teamId n config.game_session_id false = none ∧
    getStatus dbEmpty t2 m sid2 true = none ∧
    handleAssignmentClick db teamId n config false cS cR freshScoreId now scoreOk statusOk
      = completeViaJury db teamId n (if config.double_points_active then 2 else 1)
          config.game_session_id CompletionMethod.jury
          (some "Handmatig toegekend via jury pagina") freshScoreId now scoreOk statusOk := by
  refine ⟨rfl, rfl, ?_⟩
  simp [handleAssignmentClick, getStatus, statusIsOneOf]
